import Mathlib

/-!
Verification of the CNC tool-catalog validation and export engine.

The development shallowly embeds the two core services:
  * `validate_tool` (backend/services/validation_service.py): a pure rule
    engine producing error and warning findings over a tool's geometry.
  * the export pipeline (backend/services/export_service.py): unit
    conversion followed by a per-format projection.

Geometry values are modelled as rationals; a geometry is a partial map
from the finitely many field names the engine reads to values.  Python's
truthiness test `not geometry.get(f)` — true when the key is absent or
the stored value is zero — is embedded explicitly (`falsy`).
-/

namespace CncCalc

/-- The geometry field names read by the validator or the exporter. -/
inductive GeomField where
  | diameter
  | flute_length
  | overall_length
  | flute_count
  | helix_angle
  | length_of_cut
  | corner_radius
  | tip_radius
  | included_angle
  | tip_flat
  | shank_diameter
  | point_angle
  | lead_angle
  | pitch
  | max_thread_length
deriving DecidableEq, Repr

/-- A geometry mapping: each field is either absent (`none`) or holds a
numeric value. -/
def Geometry : Type := GeomField → Option ℚ

/-- The closed tool-type enumeration of `schemas/tool.py`. -/
inductive ToolType where
  | end_mill
  | ball_end_mill
  | chamfer
  | drill
  | reamer
  | thread_mill
deriving DecidableEq, Repr

/-- The string value of a tool type (the `str`-enum's underlying value). -/
def toolTypeStr : ToolType → String
  | .end_mill => "end_mill"
  | .ball_end_mill => "ball_end_mill"
  | .chamfer => "chamfer"
  | .drill => "drill"
  | .reamer => "reamer"
  | .thread_mill => "thread_mill"

/-- The part of a tool record the validator and exporter read. -/
structure ToolRecord where
  name : String
  vendor : String
  type : ToolType
  geometry : Geometry

/-- One validation finding (`ValidationError` in `schemas/tool.py`). -/
structure ValidationError where
  field : String
  message : String
  severity : String
deriving DecidableEq, Repr

/-- The validator's verdict (`ValidationResponse`). -/
structure ValidationResponse where
  is_valid : Bool
  errors : List ValidationError
  warnings : List ValidationError
deriving Repr

/-- Python truthiness of `geometry.get(f)`: false when the key is absent
or the value is zero. -/
def falsy : Option ℚ → Bool
  | none => true
  | some v => decide (v = 0)

/-- `if not geometry.get(f) or bad(geometry[f])` — the guard of every
"required and in range" rule: fires when the field is absent, zero, or
`bad` holds of its value. -/
def checkFail (g : Geometry) (f : GeomField) (bad : ℚ → Bool) : Bool :=
  match g f with
  | none => true
  | some v => decide (v = 0) || bad v

/-- `if geometry.get(f) is None or bad(geometry[f])` — the chamfer
`tip_flat` rule's guard: absence counts, a stored zero does not. -/
def checkNoneFail (g : Geometry) (f : GeomField) (bad : ℚ → Bool) : Bool :=
  match g f with
  | none => true
  | some v => bad v

/-- `if geometry.get(a) and geometry.get(b): if cmp(...)` — a cross-field
rule guarded by truthiness of both operands. -/
def crossFail (g : Geometry) (a b : GeomField) (cmp : ℚ → ℚ → Bool) : Bool :=
  match g a, g b with
  | some va, some vb => !decide (va = 0) && !decide (vb = 0) && cmp va vb
  | _, _ => false

/-- `if geometry.get(f): if cond(...)` — a single-field rule guarded by
truthiness. -/
def guardCond (g : Geometry) (f : GeomField) (cond : ℚ → Bool) : Bool :=
  match g f with
  | none => false
  | some v => !decide (v = 0) && cond v

/-- `if geometry.get(f) is not None: if cond(...)` — the reamer
`lead_angle` rule's guard: presence, not truthiness. -/
def notNoneCond (g : Geometry) (f : GeomField) (cond : ℚ → Bool) : Bool :=
  match g f with
  | none => false
  | some v => cond v

/-- The singleton error list appended when a rule fires. -/
def mkErr (b : Bool) (f m : String) : List ValidationError :=
  if b then [⟨f, m, "error"⟩] else []

/-- The singleton warning list appended when a rule fires. -/
def mkWarn (b : Bool) (f m : String) : List ValidationError :=
  if b then [⟨f, m, "warning"⟩] else []

/-- `_validate_basic_fields`: errors and warnings it appends, in source
order. -/
def validate_basic_fields (g : Geometry) :
    List ValidationError × List ValidationError :=
  (mkErr (checkFail g .diameter (fun v => v ≤ 0)) "diameter"
      "Diameter must be greater than 0"
    ++ mkErr (checkFail g .flute_length (fun v => v ≤ 0)) "flute_length"
      "Flute length must be greater than 0"
    ++ mkErr (checkFail g .overall_length (fun v => v ≤ 0)) "overall_length"
      "Overall length must be greater than 0"
    ++ mkErr (crossFail g .flute_length .overall_length (fun a b => b ≤ a))
      "flute_length" "Flute length must be less than overall length",
   [])

/-- `_validate_end_mill`. -/
def validate_end_mill (g : Geometry) :
    List ValidationError × List ValidationError :=
  (mkErr (checkFail g .flute_count (fun v => v < 1)) "flute_count"
      "Flute count must be at least 1"
    ++ mkErr (checkFail g .helix_angle (fun v => v < 0)) "helix_angle"
      "Helix angle must be non-negative"
    ++ mkErr (checkFail g .length_of_cut (fun v => v ≤ 0)) "length_of_cut"
      "Length of cut must be greater than 0"
    ++ mkErr (crossFail g .flute_length .length_of_cut (fun a b => a < b))
      "length_of_cut" "Length of cut cannot exceed flute length",
   mkWarn (guardCond g .helix_angle (fun v => v < 20 || 45 < v)) "helix_angle"
      "Unusual helix angle - typical range is 20-45 degrees"
    ++ mkWarn (crossFail g .corner_radius .diameter (fun cr d => d / 4 < cr))
      "corner_radius" "Large corner radius may affect cutting performance")

/-- `_validate_ball_end_mill`. -/
def validate_ball_end_mill (g : Geometry) :
    List ValidationError × List ValidationError :=
  (mkErr (checkFail g .flute_count (fun v => v < 1)) "flute_count"
      "Flute count must be at least 1"
    ++ mkErr (checkFail g .tip_radius (fun v => v ≤ 0)) "tip_radius"
      "Tip radius must be greater than 0"
    ++ mkErr (crossFail g .diameter .tip_radius
        (fun d r => (0.01 : ℚ) < |r - d / 2|))
      "tip_radius" "Tip radius must equal half the diameter for ball end mills",
   [])

/-- `_validate_chamfer`. -/
def validate_chamfer (g : Geometry) :
    List ValidationError × List ValidationError :=
  (mkErr (checkFail g .included_angle (fun v => v ≤ 0)) "included_angle"
      "Included angle is required and must be greater than 0"
    ++ mkErr (checkNoneFail g .tip_flat (fun v => v < 0)) "tip_flat"
      "Tip flat is required"
    ++ mkErr (checkFail g .shank_diameter (fun v => v ≤ 0)) "shank_diameter"
      "Shank diameter must be greater than 0",
   mkWarn (guardCond g .tip_flat (fun v => v < 0.1)) "tip_flat"
      "Very small tip flat may be difficult to manufacture")

/-- `_validate_drill`. -/
def validate_drill (g : Geometry) :
    List ValidationError × List ValidationError :=
  (mkErr (checkFail g .point_angle (fun v => v ≤ 0)) "point_angle"
      "Point angle must be greater than 0",
   mkWarn (guardCond g .point_angle (fun v => v < 90 || 150 < v)) "point_angle"
      "Unusual point angle - typical range is 90-150 degrees")

/-- `_validate_reamer`. -/
def validate_reamer (g : Geometry) :
    List ValidationError × List ValidationError :=
  ([],
   mkWarn (notNoneCond g .lead_angle (fun v => v < 0 || 90 < v)) "lead_angle"
      "Lead angle should be between 0 and 90 degrees")

/-- `_validate_thread_mill`. -/
def validate_thread_mill (g : Geometry) :
    List ValidationError × List ValidationError :=
  (mkErr (checkFail g .pitch (fun v => v ≤ 0)) "pitch"
      "Pitch must be greater than 0"
    ++ mkErr (checkFail g .max_thread_length (fun v => v ≤ 0))
      "max_thread_length" "Maximum thread length must be greater than 0",
   mkWarn (crossFail g .max_thread_length .flute_length (fun m fl => fl < m))
      "max_thread_length" "Maximum thread length should not exceed flute length")

/-- The supported-type list of `_validate_fusion_compatibility`. -/
def supported_types : List ToolType :=
  [.end_mill, .ball_end_mill, .chamfer, .drill, .reamer, .thread_mill]

/-- `_validate_fusion_compatibility`. -/
def validate_fusion_compatibility (t : ToolType) (g : Geometry) :
    List ValidationError × List ValidationError :=
  ((if supported_types.contains t then []
    else [⟨"type",
      "Tool type " ++ toolTypeStr t ++ " is not supported by Fusion 360",
      "error"⟩])
    ++ [],
   mkWarn (guardCond g .diameter (fun v => v < 0.1 || 100 < v)) "diameter"
      "Diameter outside typical range (0.1-100mm)"
    ++ mkWarn (guardCond g .overall_length (fun v => v < 1 || 500 < v))
      "overall_length" "Overall length outside typical range (1-500mm)")

/-- The per-type dispatch of `validate_tool`. -/
def validate_type_specific (t : ToolType) (g : Geometry) :
    List ValidationError × List ValidationError :=
  match t with
  | .end_mill => validate_end_mill g
  | .ball_end_mill => validate_ball_end_mill g
  | .chamfer => validate_chamfer g
  | .drill => validate_drill g
  | .reamer => validate_reamer g
  | .thread_mill => validate_thread_mill g

/-- `ValidationService.validate_tool`: run the three stages in source
order, accumulate errors and warnings, and set `is_valid` from the error
count. -/
def validate_tool (t : ToolRecord) : ValidationResponse :=
  let basic := validate_basic_fields t.geometry
  let ts := validate_type_specific t.type t.geometry
  let compat := validate_fusion_compatibility t.type t.geometry
  let errors := basic.1 ++ ts.1 ++ compat.1
  let warnings := basic.2 ++ ts.2 ++ compat.2
  ⟨errors.length == 0, errors, warnings⟩

/-! ### Operational model of the validator with fallible subscripts

`geometry[f]` in Python raises `KeyError` when the key is absent and is
only reached behind the short-circuiting guards above.  To settle
totality, the rules are re-modelled in the `Except` monad with the
subscript access fallible, mirroring the source's evaluation order, and
proved to always return the pure verdict. -/

/-- `geometry[f]`: fallible dictionary subscript. -/
def getItem (g : Geometry) (f : GeomField) : Except String ℚ :=
  match g f with
  | some v => .ok v
  | none => .error "KeyError"

/-- `not geometry.get(f) or bad(geometry[f])`, with the subscript taken
only when the first disjunct is false. -/
def checkFailE (g : Geometry) (f : GeomField) (bad : ℚ → Bool) :
    Except String Bool :=
  if falsy (g f) then .ok true
  else do
    let v ← getItem g f
    pure (bad v)

/-- `geometry.get(f) is None or bad(geometry[f])`. -/
def checkNoneFailE (g : Geometry) (f : GeomField) (bad : ℚ → Bool) :
    Except String Bool :=
  if (g f).isNone then .ok true
  else do
    let v ← getItem g f
    pure (bad v)

/-- `if geometry.get(a) and geometry.get(b): cmp(geometry[a], geometry[b])`. -/
def crossFailE (g : Geometry) (a b : GeomField) (cmp : ℚ → ℚ → Bool) :
    Except String Bool :=
  if !falsy (g a) && !falsy (g b) then do
    let va ← getItem g a
    let vb ← getItem g b
    pure (cmp va vb)
  else .ok false

/-- `if geometry.get(f): cond(geometry[f])`. -/
def guardCondE (g : Geometry) (f : GeomField) (cond : ℚ → Bool) :
    Except String Bool :=
  if !falsy (g f) then do
    let v ← getItem g f
    pure (cond v)
  else .ok false

/-- `if geometry.get(f) is not None: cond(geometry[f])`. -/
def notNoneCondE (g : Geometry) (f : GeomField) (cond : ℚ → Bool) :
    Except String Bool :=
  if (g f).isSome then do
    let v ← getItem g f
    pure (cond v)
  else .ok false

/-- `_validate_basic_fields`, operational model. -/
def validate_basic_fieldsE (g : Geometry) :
    Except String (List ValidationError × List ValidationError) := do
  let b1 ← checkFailE g .diameter (fun v => v ≤ 0)
  let b2 ← checkFailE g .flute_length (fun v => v ≤ 0)
  let b3 ← checkFailE g .overall_length (fun v => v ≤ 0)
  let b4 ← crossFailE g .flute_length .overall_length (fun a b => b ≤ a)
  pure (mkErr b1 "diameter" "Diameter must be greater than 0"
    ++ mkErr b2 "flute_length" "Flute length must be greater than 0"
    ++ mkErr b3 "overall_length" "Overall length must be greater than 0"
    ++ mkErr b4 "flute_length" "Flute length must be less than overall length",
    [])

/-- `_validate_end_mill`, operational model. -/
def validate_end_millE (g : Geometry) :
    Except String (List ValidationError × List ValidationError) := do
  let b1 ← checkFailE g .flute_count (fun v => v < 1)
  let b2 ← checkFailE g .helix_angle (fun v => v < 0)
  let b3 ← checkFailE g .length_of_cut (fun v => v ≤ 0)
  let b4 ← crossFailE g .flute_length .length_of_cut (fun a b => a < b)
  let w1 ← guardCondE g .helix_angle (fun v => v < 20 || 45 < v)
  let w2 ← crossFailE g .corner_radius .diameter (fun cr d => d / 4 < cr)
  pure (mkErr b1 "flute_count" "Flute count must be at least 1"
    ++ mkErr b2 "helix_angle" "Helix angle must be non-negative"
    ++ mkErr b3 "length_of_cut" "Length of cut must be greater than 0"
    ++ mkErr b4 "length_of_cut" "Length of cut cannot exceed flute length",
    mkWarn w1 "helix_angle" "Unusual helix angle - typical range is 20-45 degrees"
    ++ mkWarn w2 "corner_radius" "Large corner radius may affect cutting performance")

/-- `_validate_ball_end_mill`, operational model. -/
def validate_ball_end_millE (g : Geometry) :
    Except String (List ValidationError × List ValidationError) := do
  let b1 ← checkFailE g .flute_count (fun v => v < 1)
  let b2 ← checkFailE g .tip_radius (fun v => v ≤ 0)
  let b3 ← crossFailE g .diameter .tip_radius
      (fun d r => (0.01 : ℚ) < |r - d / 2|)
  pure (mkErr b1 "flute_count" "Flute count must be at least 1"
    ++ mkErr b2 "tip_radius" "Tip radius must be greater than 0"
    ++ mkErr b3 "tip_radius"
        "Tip radius must equal half the diameter for ball end mills",
    [])

/-- `_validate_chamfer`, operational model. -/
def validate_chamferE (g : Geometry) :
    Except String (List ValidationError × List ValidationError) := do
  let b1 ← checkFailE g .included_angle (fun v => v ≤ 0)
  let b2 ← checkNoneFailE g .tip_flat (fun v => v < 0)
  let b3 ← checkFailE g .shank_diameter (fun v => v ≤ 0)
  let w1 ← guardCondE g .tip_flat (fun v => v < 0.1)
  pure (mkErr b1 "included_angle"
      "Included angle is required and must be greater than 0"
    ++ mkErr b2 "tip_flat" "Tip flat is required"
    ++ mkErr b3 "shank_diameter" "Shank diameter must be greater than 0",
    mkWarn w1 "tip_flat" "Very small tip flat may be difficult to manufacture")

/-- `_validate_drill`, operational model. -/
def validate_drillE (g : Geometry) :
    Except String (List ValidationError × List ValidationError) := do
  let b1 ← checkFailE g .point_angle (fun v => v ≤ 0)
  let w1 ← guardCondE g .point_angle (fun v => v < 90 || 150 < v)
  pure (mkErr b1 "point_angle" "Point angle must be greater than 0",
    mkWarn w1 "point_angle" "Unusual point angle - typical range is 90-150 degrees")

/-- `_validate_reamer`, operational model. -/
def validate_reamerE (g : Geometry) :
    Except String (List ValidationError × List ValidationError) := do
  let w1 ← notNoneCondE g .lead_angle (fun v => v < 0 || 90 < v)
  pure ([],
    mkWarn w1 "lead_angle" "Lead angle should be between 0 and 90 degrees")

/-- `_validate_thread_mill`, operational model. -/
def validate_thread_millE (g : Geometry) :
    Except String (List ValidationError × List ValidationError) := do
  let b1 ← checkFailE g .pitch (fun v => v ≤ 0)
  let b2 ← checkFailE g .max_thread_length (fun v => v ≤ 0)
  let w1 ← crossFailE g .max_thread_length .flute_length (fun m fl => fl < m)
  pure (mkErr b1 "pitch" "Pitch must be greater than 0"
    ++ mkErr b2 "max_thread_length"
        "Maximum thread length must be greater than 0",
    mkWarn w1 "max_thread_length"
      "Maximum thread length should not exceed flute length")

/-- `_validate_fusion_compatibility`, operational model. -/
def validate_fusion_compatibilityE (t : ToolType) (g : Geometry) :
    Except String (List ValidationError × List ValidationError) := do
  let w1 ← guardCondE g .diameter (fun v => v < 0.1 || 100 < v)
  let w2 ← guardCondE g .overall_length (fun v => v < 1 || 500 < v)
  pure ((if supported_types.contains t then []
      else [⟨"type",
        "Tool type " ++ toolTypeStr t ++ " is not supported by Fusion 360",
        "error"⟩]) ++ [],
    mkWarn w1 "diameter" "Diameter outside typical range (0.1-100mm)"
    ++ mkWarn w2 "overall_length" "Overall length outside typical range (1-500mm)")

/-- `validate_tool`, operational model: the three stages in source order
inside `Except`. -/
def validate_toolE (t : ToolRecord) : Except String ValidationResponse := do
  let basic ← validate_basic_fieldsE t.geometry
  let ts ← match t.type with
    | .end_mill => validate_end_millE t.geometry
    | .ball_end_mill => validate_ball_end_millE t.geometry
    | .chamfer => validate_chamferE t.geometry
    | .drill => validate_drillE t.geometry
    | .reamer => validate_reamerE t.geometry
    | .thread_mill => validate_thread_millE t.geometry
  let compat ← validate_fusion_compatibilityE t.type t.geometry
  let errors := basic.1 ++ ts.1 ++ compat.1
  let warnings := basic.2 ++ ts.2 ++ compat.2
  pure ⟨errors.length == 0, errors, warnings⟩

/-! ### Export service -/

/-- Python's bankers rounding of a rational to the nearest integer:
round half to even. -/
def pyRoundInt (x : ℚ) : ℤ :=
  let f := ⌊x⌋
  let r := x - f
  if r < 1 / 2 then f
  else if 1 / 2 < r then f + 1
  else if f % 2 = 0 then f else f + 1

/-- `round(x, 4)`: round to four decimal places. -/
def round4 (x : ℚ) : ℚ :=
  (pyRoundInt (x * 10000) : ℚ) / 10000

/-- The millimeter-denominated fields of `_convert_to_imperial`. -/
def mm_fields : List GeomField :=
  [.diameter, .flute_length, .overall_length, .length_of_cut,
   .corner_radius, .tip_radius, .tip_flat, .shank_diameter,
   .pitch, .max_thread_length]

/-- `ExportUnits` of `schemas/tool.py`. -/
inductive ExportUnits where
  | metric
  | imperial
deriving DecidableEq, Repr

/-- `_convert_to_imperial`: divide each present millimeter field by 25.4
and round to 4 places; leave every other field untouched. -/
def convert_to_imperial (g : Geometry) : Geometry := fun f =>
  if mm_fields.contains f then (g f).map (fun v => round4 (v / 25.4))
  else g f

/-- The geometry both generators read: converted when imperial, the
original when metric. -/
def convGeom (g : Geometry) (u : ExportUnits) : Geometry :=
  match u with
  | .imperial => convert_to_imperial g
  | .metric => g

/-- A JSON value of the structured export (string or number). -/
inductive JVal where
  | s : String → JVal
  | n : ℚ → JVal
deriving DecidableEq, Repr

/-- `geometry.get(f, default)` as a JSON number. -/
def jget (g : Geometry) (f : GeomField) (d : ℚ) : JVal :=
  .n ((g f).getD d)

/-- The display-name table of `_map_tool_type_to_fusion`. -/
def fusion_type_map : List (ToolType × String) :=
  [(.end_mill, "End Mill"), (.ball_end_mill, "Ball End Mill"),
   (.chamfer, "Chamfer Mill"), (.drill, "Drill"),
   (.reamer, "Reamer"), (.thread_mill, "Thread Mill")]

/-- `_map_tool_type_to_fusion`: `mapping.get(tool_type, tool_type)`. -/
def map_tool_type_to_fusion (t : ToolType) : String :=
  (fusion_type_map.lookup t).getD (toolTypeStr t)

/-- `_generate_fusion_json` up to serialization: the ordered key-value
pairs of the structured export. -/
def generate_fusion_json (t : ToolRecord) (u : ExportUnits) :
    List (String × JVal) :=
  let g := convGeom t.geometry u
  [("toolType", .s (map_tool_type_to_fusion t.type)),
   ("name", .s t.name),
   ("vendor", .s t.vendor),
   ("diameter", jget g .diameter 0),
   ("fluteLength", jget g .flute_length 0),
   ("overallLength", jget g .overall_length 0),
   ("units", .s (if u = .imperial then "in" else "mm"))]
  ++ match t.type with
     | .end_mill =>
        [("fluteCount", jget g .flute_count 2),
         ("helixAngle", jget g .helix_angle 30),
         ("lengthOfCut", jget g .length_of_cut 0),
         ("cornerRadius", jget g .corner_radius 0)]
     | .ball_end_mill =>
        [("fluteCount", jget g .flute_count 2),
         ("tipRadius", jget g .tip_radius 0)]
     | .chamfer =>
        [("includedAngle", jget g .included_angle 90),
         ("tipFlat", jget g .tip_flat 0),
         ("shankDiameter", jget g .shank_diameter 0)]
     | .drill =>
        [("pointAngle", jget g .point_angle 118)]
     | .reamer =>
        [("leadAngle", jget g .lead_angle 0)]
     | .thread_mill =>
        [("pitch", jget g .pitch 0),
         ("maxThreadLength", jget g .max_thread_length 0)]

/-- One CSV cell: a string, a number, or the empty cell written for
`geometry.get(f, "")` when the field is absent. -/
inductive Cell where
  | s : String → Cell
  | n : ℚ → Cell
  | empty
deriving DecidableEq, Repr

/-- `geometry.get(f, "")` as a CSV cell. -/
def cget (g : Geometry) (f : GeomField) : Cell :=
  match g f with
  | some v => .n v
  | none => .empty

/-- The header row of `_generate_csv`. -/
def csv_headers (t : ToolType) : List String :=
  ["Tool Name", "Vendor", "Type", "Diameter", "Flute Length",
   "Overall Length", "Units"]
  ++ match t with
     | .end_mill => ["Flute Count", "Helix Angle", "Length of Cut", "Corner Radius"]
     | .ball_end_mill => ["Flute Count", "Tip Radius"]
     | .chamfer => ["Included Angle", "Tip Flat", "Shank Diameter"]
     | .drill => ["Point Angle"]
     | .reamer => ["Lead Angle"]
     | .thread_mill => ["Pitch", "Max Thread Length"]

/-- The data row of `_generate_csv`. -/
def csv_row (t : ToolRecord) (u : ExportUnits) : List Cell :=
  let g := convGeom t.geometry u
  [.s t.name, .s t.vendor, .s (toolTypeStr t.type),
   cget g .diameter, cget g .flute_length, cget g .overall_length,
   .s (if u = .imperial then "in" else "mm")]
  ++ match t.type with
     | .end_mill =>
        [cget g .flute_count, cget g .helix_angle,
         cget g .length_of_cut, cget g .corner_radius]
     | .ball_end_mill =>
        [cget g .flute_count, cget g .tip_radius]
     | .chamfer =>
        [cget g .included_angle, cget g .tip_flat, cget g .shank_diameter]
     | .drill =>
        [cget g .point_angle]
     | .reamer =>
        [cget g .lead_angle]
     | .thread_mill =>
        [cget g .pitch, cget g .max_thread_length]

/-- An export payload: the structured key-value pairs or the CSV header
and data rows. -/
inductive ExportData where
  | fusion : List (String × JVal) → ExportData
  | csv : List String → List Cell → ExportData
deriving DecidableEq, Repr

/-- `_generate_export_data`: dispatch on the requested format string
(the `str`-enum's value); any other string raises `ValueError`. -/
def generate_export_data (t : ToolRecord) (format : String)
    (u : ExportUnits) : Except String ExportData :=
  if format = "fusion_json" then .ok (.fusion (generate_fusion_json t u))
  else if format = "csv" then .ok (.csv (csv_headers t.type) (csv_row t u))
  else .error ("Unsupported export format: " ++ format)

/-! ### Heap model of the export pipeline's dictionary copies

The generators run `geometry = tool.geometry.copy()` and
`_convert_to_imperial` runs `converted = geometry.copy()` followed by
in-place updates `converted[field] = ...`.  To settle that the input
record's geometry is never mutated, the dictionary operations are given
an explicit heap semantics: geometries live in a store addressed by
references, copying allocates, and the field updates write through the
fresh reference only. -/

/-- A store of geometry objects; a reference is an index into the heap. -/
structure Store where
  heap : List Geometry

/-- Dereference; a dangling reference reads as the empty mapping. -/
def readRef (s : Store) (r : Nat) : Geometry :=
  (s.heap[r]?).getD (fun _ => none)

/-- `d.copy()`: allocate a fresh object holding the same mapping. -/
def allocCopy (s : Store) (r : Nat) : Nat × Store :=
  (s.heap.length, ⟨s.heap ++ [readRef s r]⟩)

/-- `d[f] = v`: in-place update of the object behind `r`. -/
def writeField (s : Store) (r : Nat) (f : GeomField) (v : ℚ) : Store :=
  ⟨s.heap.set r (fun f' => if f' = f then some v else readRef s r f')⟩

/-- One iteration of the conversion loop:
`if field in converted and converted[field] is not None:
converted[field] = round(converted[field] / 25.4, 4)`. -/
def convertStep (s : Store) (r : Nat) (f : GeomField) : Store :=
  match readRef s r f with
  | some v => writeField s r f (round4 (v / 25.4))
  | none => s

/-- `_convert_to_imperial` on the heap: copy, then update each
millimeter field in place. -/
def convert_to_imperialRef (s : Store) (r : Nat) : Nat × Store :=
  let rs := allocCopy s r
  (rs.1, mm_fields.foldl (fun acc f => convertStep acc rs.1 f) rs.2)

/-- The geometry-handling prefix shared by both generators:
`geometry = tool.geometry.copy()`, then conversion when imperial.  The
returned reference is the dictionary the projection reads. -/
def export_geometry_ref (s : Store) (r : Nat) (u : ExportUnits) :
    Nat × Store :=
  let rs := allocCopy s r
  match u with
  | .imperial => convert_to_imperialRef rs.2 rs.1
  | .metric => rs

/-! ### Extension order and concrete demonstration records -/

/-- An end mill whose geometry stores `helix_angle = 0`, with every
other field well in range. -/
def zero_helix_end_mill : ToolRecord :=
  ⟨"straight flute em", "acme", .end_mill, fun f =>
    match f with
    | .diameter => some 6
    | .flute_length => some 20
    | .overall_length => some 50
    | .flute_count => some 2
    | .helix_angle => some 0
    | .length_of_cut => some 18
    | _ => none⟩

/-- A ball end mill with diameter 6 and tip radius 2 (off by 1 from the
required half diameter). -/
def ball_demo : ToolRecord :=
  ⟨"bem", "acme", .ball_end_mill, fun f =>
    match f with
    | .diameter => some 6
    | .flute_length => some 20
    | .overall_length => some 50
    | .flute_count => some 2
    | .tip_radius => some 2
    | _ => none⟩

/-- An end mill storing `flute_length = 0` beside a present
`overall_length`. -/
def zero_flute_length_demo : ToolRecord :=
  ⟨"zf", "acme", .end_mill, fun f =>
    match f with
    | .flute_length => some 0
    | .overall_length => some 50
    | _ => none⟩

/-- A chamfer storing `tip_flat = 0`. -/
def zero_tip_flat_chamfer : ToolRecord :=
  ⟨"cf", "acme", .chamfer, fun f =>
    match f with
    | .tip_flat => some 0
    | _ => none⟩

/-- A geometry holding `diameter = 254` and `helix_angle = 30`, with
`corner_radius` absent. -/
def conv_demo_geom : Geometry := fun f =>
  match f with
  | .diameter => some 254
  | .helix_angle => some 30
  | _ => none

/-- A drill missing `point_angle` (and `flute_length`). -/
def drill_demo : ToolRecord :=
  ⟨"dr", "acme", .drill, fun f =>
    match f with
    | .diameter => some 5
    | _ => none⟩

/-- A one-object store holding `conv_demo_geom`. -/
def demo_store : Store := ⟨[conv_demo_geom]⟩

/-- A value violating a geometry field's own validation rule: the value
ranges the rules reject for that field (for `flute_count` anything below
1, for `tip_flat` a negative value, for `helix_angle` zero or below —
the truthiness guard rejects a stored zero — and for the remaining
dimension fields anything at or below zero).  `corner_radius` and
`lead_angle` have no error rule, so no value violates them. -/
def violates (f : GeomField) (v : ℚ) : Prop :=
  match f with
  | .flute_count => v < 1
  | .tip_flat => v < 0
  | .corner_radius => False
  | .lead_angle => False
  | _ => v ≤ 0

/-- `g'` extends `g` by out-of-range fields: every field present in `g`
keeps its value in `g'`, and a field absent from `g` is either still
absent or present with a value violating its rule. -/
def ExtendsBad (g g' : Geometry) : Prop :=
  ∀ f, (∀ v, g f = some v → g' f = some v) ∧
    (g f = none → g' f = none ∨ ∃ v, g' f = some v ∧ violates f v)

/-- The empty geometry. -/
def ext_base_geom : Geometry := fun _ => none

/-- The empty geometry extended by an out-of-range `diameter`. -/
def ext_more_geom : Geometry := fun f =>
  match f with
  | .diameter => some (-1)
  | _ => none

/-! ### Helper lemmas -/

lemma except_pure_eq_ok {α : Type} (a : α) :
    (pure a : Except String α) = Except.ok a := rfl

lemma except_ok_bind {α β : Type} (a : α) (f : α → Except String β) :
    (Except.ok a >>= f : Except String β) = f a := rfl

lemma checkFailE_eq (g : Geometry) (f : GeomField) (bad : ℚ → Bool) :
    checkFailE g f bad = .ok (checkFail g f bad) := by
  cases h : g f with
  | none => simp [checkFailE, checkFail, falsy, h]
  | some v =>
    by_cases hv : v = 0 <;>
      simp [checkFailE, checkFail, falsy, getItem, h, hv, except_ok_bind]

lemma checkNoneFailE_eq (g : Geometry) (f : GeomField) (bad : ℚ → Bool) :
    checkNoneFailE g f bad = .ok (checkNoneFail g f bad) := by
  cases h : g f <;>
    simp [checkNoneFailE, checkNoneFail, getItem, h, except_ok_bind]

lemma crossFailE_eq (g : Geometry) (a b : GeomField) (cmp : ℚ → ℚ → Bool) :
    crossFailE g a b cmp = .ok (crossFail g a b cmp) := by
  cases ha : g a with
  | none => simp [crossFailE, crossFail, falsy, ha]
  | some va =>
    cases hb : g b with
    | none =>
      by_cases hva : va = 0 <;>
        simp [crossFailE, crossFail, falsy, getItem, ha, hb, hva]
    | some vb =>
      by_cases hva : va = 0 <;> by_cases hvb : vb = 0 <;>
        simp [crossFailE, crossFail, falsy, getItem, ha, hb, hva, hvb,
          except_ok_bind]

lemma guardCondE_eq (g : Geometry) (f : GeomField) (cond : ℚ → Bool) :
    guardCondE g f cond = .ok (guardCond g f cond) := by
  cases h : g f with
  | none => simp [guardCondE, guardCond, falsy, h]
  | some v =>
    by_cases hv : v = 0 <;>
      simp [guardCondE, guardCond, falsy, getItem, h, hv, except_ok_bind]

lemma notNoneCondE_eq (g : Geometry) (f : GeomField) (cond : ℚ → Bool) :
    notNoneCondE g f cond = .ok (notNoneCond g f cond) := by
  cases h : g f <;>
    simp [notNoneCondE, notNoneCond, getItem, h, except_ok_bind]

lemma validate_basic_fieldsE_eq (g : Geometry) :
    validate_basic_fieldsE g = .ok (validate_basic_fields g) := by
  simp [validate_basic_fieldsE, validate_basic_fields, checkFailE_eq,
    crossFailE_eq, except_ok_bind]

lemma validate_end_millE_eq (g : Geometry) :
    validate_end_millE g = .ok (validate_end_mill g) := by
  simp [validate_end_millE, validate_end_mill, checkFailE_eq, crossFailE_eq,
    guardCondE_eq, except_ok_bind]

lemma validate_ball_end_millE_eq (g : Geometry) :
    validate_ball_end_millE g = .ok (validate_ball_end_mill g) := by
  simp [validate_ball_end_millE, validate_ball_end_mill, checkFailE_eq,
    crossFailE_eq, except_ok_bind]

lemma validate_chamferE_eq (g : Geometry) :
    validate_chamferE g = .ok (validate_chamfer g) := by
  simp [validate_chamferE, validate_chamfer, checkFailE_eq, checkNoneFailE_eq,
    guardCondE_eq, except_ok_bind]

lemma validate_drillE_eq (g : Geometry) :
    validate_drillE g = .ok (validate_drill g) := by
  simp [validate_drillE, validate_drill, checkFailE_eq, guardCondE_eq,
    except_ok_bind]

lemma validate_reamerE_eq (g : Geometry) :
    validate_reamerE g = .ok (validate_reamer g) := by
  simp [validate_reamerE, validate_reamer, notNoneCondE_eq, except_ok_bind]

lemma validate_thread_millE_eq (g : Geometry) :
    validate_thread_millE g = .ok (validate_thread_mill g) := by
  simp [validate_thread_millE, validate_thread_mill, checkFailE_eq,
    crossFailE_eq, except_ok_bind]

lemma validate_fusion_compatibilityE_eq (t : ToolType) (g : Geometry) :
    validate_fusion_compatibilityE t g =
      .ok (validate_fusion_compatibility t g) := by
  simp [validate_fusion_compatibilityE, validate_fusion_compatibility,
    guardCondE_eq, except_ok_bind]

lemma mem_mkErr_iff (e : ValidationError) (b : Bool) (f m : String) :
    e ∈ mkErr b f m ↔ b = true ∧ e = ⟨f, m, "error"⟩ := by
  cases b <;> simp [mkErr]

lemma mem_mkWarn_iff (e : ValidationError) (b : Bool) (f m : String) :
    e ∈ mkWarn b f m ↔ b = true ∧ e = ⟨f, m, "warning"⟩ := by
  cases b <;> simp [mkWarn]

lemma all_sev_mkErr (b : Bool) (f m : String) :
    (mkErr b f m).all (fun e => e.severity == "error") = true := by
  cases b <;> simp [mkErr]

lemma all_sev_mkWarn (b : Bool) (f m : String) :
    (mkWarn b f m).all (fun e => e.severity == "warning") = true := by
  cases b <;> simp [mkWarn]

/-! ### Claims -/

/-- C5: for every tool record the verdict returned by `validate_tool`
satisfies `is_valid = true` iff the errors list is empty; the errors
list holds only error-severity findings and the warnings list only
warning-severity findings. -/
theorem validate_partition (t : ToolRecord) :
    ((validate_tool t).is_valid = true ↔ (validate_tool t).errors = []) ∧
    (validate_tool t).errors.all (fun e => e.severity == "error") = true ∧
    (validate_tool t).warnings.all (fun e => e.severity == "warning") = true := by
  rcases t with ⟨n, vend, ty, g⟩
  refine ⟨?_, ?_, ?_⟩
  · simp [validate_tool, List.length_eq_zero]
  · cases ty <;>
      simp [validate_tool, validate_type_specific, validate_basic_fields,
        validate_end_mill, validate_ball_end_mill, validate_chamfer,
        validate_drill, validate_reamer, validate_thread_mill,
        validate_fusion_compatibility, supported_types,
        List.all_append, all_sev_mkErr]
  · cases ty <;>
      simp [validate_tool, validate_type_specific, validate_basic_fields,
        validate_end_mill, validate_ball_end_mill, validate_chamfer,
        validate_drill, validate_reamer, validate_thread_mill,
        validate_fusion_compatibility, List.all_append, all_sev_mkWarn]

/-- C6: the validator is total.  In the operational model where the
dictionary subscript `geometry[f]` raises on an absent key,
`validate_toolE` never reaches a raise for any tool record — it always
returns the pure verdict of `validate_tool`, reporting absent or
out-of-range fields as error findings instead. -/
theorem validate_toolE_total (t : ToolRecord) :
    validate_toolE t = Except.ok (validate_tool t) := by
  rcases t with ⟨n, vend, ty, g⟩
  cases ty <;>
    simp [validate_toolE, validate_tool, validate_type_specific,
      validate_basic_fieldsE_eq, validate_end_millE_eq,
      validate_ball_end_millE_eq, validate_chamferE_eq, validate_drillE_eq,
      validate_reamerE_eq, validate_thread_millE_eq,
      validate_fusion_compatibilityE_eq, except_ok_bind]

/-- C4: evaluation of the code at the failing input.  For an end mill
with a present `helix_angle` equal to `0`, `validate_tool` emits the
error finding on `helix_angle` — although the finding's own message
requires only non-negativity — because the truthiness guard
`not geometry.get("helix_angle")` treats the stored `0` as absent.  The
claim (no error for a present zero helix angle) is what the rule's
message and the schema (`helix_angle: ge=0`) describe, so the code
contradicts its own documentation here. -/
theorem end_mill_zero_helix_angle_gets_error :
    (validate_tool zero_helix_end_mill).is_valid = false ∧
    ValidationError.mk "helix_angle" "Helix angle must be non-negative" "error"
      ∈ (validate_tool zero_helix_end_mill).errors := by
  constructor
  · decide
  · decide

lemma any_mkErr (b : Bool) (f m : String) (p : ValidationError → Bool) :
    (mkErr b f m).any p = (b && p ⟨f, m, "error"⟩) := by
  cases b <;> simp [mkErr]

/-- C1: for a ball end mill whose geometry holds a positive `diameter`
and a positive `tip_radius`, `validate_tool` returns an error finding on
field `tip_radius` exactly when the tip radius differs from half the
diameter by more than `0.01`; when it equals half the diameter exactly,
no such error is produced. -/
theorem ball_tip_radius_error_iff (t : ToolRecord) (d r : ℚ)
    (ht : t.type = .ball_end_mill)
    (hd : t.geometry .diameter = some d)
    (hr : t.geometry .tip_radius = some r)
    (hdpos : 0 < d) (hrpos : 0 < r) :
    ((validate_tool t).errors.any (fun e => e.field == "tip_radius") = true ↔
      0.01 < |r - d / 2|) ∧
    (r = d / 2 →
      (validate_tool t).errors.any (fun e => e.field == "tip_radius") = false) := by
  rcases t with ⟨n, vend, ty, g⟩
  simp only at hd hr ht
  subst ht
  have hd0 : d ≠ 0 := ne_of_gt hdpos
  have hr0 : r ≠ 0 := ne_of_gt hrpos
  have hrle : ¬(r ≤ 0) := not_le.mpr hrpos
  constructor
  · simp [validate_tool, validate_type_specific, validate_basic_fields,
      validate_ball_end_mill, validate_fusion_compatibility, supported_types,
      List.any_append, any_mkErr, checkFail, crossFail, hd, hr, hd0, hr0, hrle]
  · intro hreq
    subst hreq
    simp [validate_tool, validate_type_specific, validate_basic_fields,
      validate_ball_end_mill, validate_fusion_compatibility, supported_types,
      List.any_append, any_mkErr, checkFail, crossFail, hd, hr, hd0, hr0, hrle,
      sub_self, abs_zero]
    norm_num

/-- Witness for C1 at `ball_demo`. -/
theorem ball_tip_radius_error_iff_witness :
    (0 : ℚ) < 6 ∧ (0 : ℚ) < 2 ∧
    (((validate_tool ball_demo).errors.any
        (fun e => e.field == "tip_radius") = true ↔
      0.01 < |(2 : ℚ) - 6 / 2|) ∧
    ((2 : ℚ) = 6 / 2 →
      (validate_tool ball_demo).errors.any
        (fun e => e.field == "tip_radius") = false)) :=
  ⟨by decide, by decide,
    ball_tip_radius_error_iff ball_demo 6 2 rfl rfl rfl (by decide) (by decide)⟩

lemma crossFail_left_zero (g : Geometry) (a b : GeomField)
    (cmp : ℚ → ℚ → Bool) (h : g a = some 0) :
    crossFail g a b cmp = false := by
  cases hb : g b <;> simp [crossFail, h, hb]

lemma guardCond_zero (g : Geometry) (f : GeomField) (cond : ℚ → Bool)
    (h : g f = some 0) : guardCond g f cond = false := by
  simp [guardCond, h]

lemma all_msg_mkErr (b : Bool) (f m M : String) :
    (mkErr b f m).all (fun e => e.message != M) = (!b || (m != M)) := by
  cases b <;> simp [mkErr]

lemma all_msg_mkWarn (b : Bool) (f m M : String) :
    (mkWarn b f m).all (fun w => w.message != M) = (!b || (m != M)) := by
  cases b <;> simp [mkWarn]

/-- C9: a geometry field stored as `0` is treated by the guarded
cross-field and warning rules of `validate_tool` as if it were absent:
with `flute_length = 0` the cross-field error comparing flute length and
overall length is never produced, and for a chamfer with `tip_flat = 0`
the small-tip-flat warning is never produced even though `0 < 0.1`. -/
theorem zero_value_treated_as_absent :
    (∀ t : ToolRecord, t.geometry .flute_length = some 0 →
      (validate_tool t).errors.all
        (fun e => e.message != "Flute length must be less than overall length")
        = true) ∧
    (∀ t : ToolRecord, t.type = .chamfer → t.geometry .tip_flat = some 0 →
      (validate_tool t).warnings.all
        (fun w => w.message != "Very small tip flat may be difficult to manufacture")
        = true) := by
  constructor
  · rintro ⟨n, vend, ty, g⟩ hfl
    simp only at hfl
    have h1 := crossFail_left_zero g .flute_length .overall_length
      (fun a b => b ≤ a) hfl
    have h2 := crossFail_left_zero g .flute_length .length_of_cut
      (fun a b => a < b) hfl
    cases ty <;>
      simp [validate_tool, validate_type_specific, validate_basic_fields,
        validate_end_mill, validate_ball_end_mill, validate_chamfer,
        validate_drill, validate_reamer, validate_thread_mill,
        validate_fusion_compatibility, supported_types, h1, h2,
        List.all_append, all_msg_mkErr]
  · rintro ⟨n, vend, ty, g⟩ hty htf
    simp only at hty htf
    subst hty
    have h1 := guardCond_zero g .tip_flat (fun v => v < 0.1) htf
    simp [validate_tool, validate_type_specific, validate_chamfer,
      validate_basic_fields, validate_fusion_compatibility, h1,
      List.all_append, all_msg_mkWarn]

/-- Witness for C9 at the two demo tools. -/
theorem zero_value_treated_as_absent_witness :
    (validate_tool zero_flute_length_demo).errors.all
      (fun e => e.message != "Flute length must be less than overall length")
      = true ∧
    (validate_tool zero_tip_flat_chamfer).warnings.all
      (fun w => w.message != "Very small tip flat may be difficult to manufacture")
      = true :=
  ⟨zero_value_treated_as_absent.1 zero_flute_length_demo rfl,
   zero_value_treated_as_absent.2 zero_tip_flat_chamfer rfl rfl⟩

/-- C2: under imperial units the conversion maps exactly the ten
millimeter fields that are present, each value `v` becoming
`round4 (v / 25.4)`; angular and count fields are never converted;
absent fields remain absent; and under metric units the geometry passes
through unchanged.  The final conjunctions pin down the millimeter field
set: precisely the ten listed fields are converted. -/
theorem convert_exactly_mm_fields (g : Geometry) :
    (∀ f, mm_fields.contains f = true →
      convert_to_imperial g f = (g f).map (fun v => round4 (v / 25.4))) ∧
    (∀ f, mm_fields.contains f = false → convert_to_imperial g f = g f) ∧
    (∀ f, g f = none → convert_to_imperial g f = none) ∧
    (∀ f, convGeom g .imperial f = convert_to_imperial g f) ∧
    (∀ f, convGeom g .metric f = g f) ∧
    (mm_fields.contains .diameter = true ∧
     mm_fields.contains .flute_length = true ∧
     mm_fields.contains .overall_length = true ∧
     mm_fields.contains .length_of_cut = true ∧
     mm_fields.contains .corner_radius = true ∧
     mm_fields.contains .tip_radius = true ∧
     mm_fields.contains .tip_flat = true ∧
     mm_fields.contains .shank_diameter = true ∧
     mm_fields.contains .pitch = true ∧
     mm_fields.contains .max_thread_length = true) ∧
    (mm_fields.contains .helix_angle = false ∧
     mm_fields.contains .included_angle = false ∧
     mm_fields.contains .point_angle = false ∧
     mm_fields.contains .lead_angle = false ∧
     mm_fields.contains .flute_count = false) := by
  refine ⟨?_, ?_, ?_, fun f => rfl, fun f => rfl, ?_, ?_⟩
  · intro f hf
    unfold convert_to_imperial
    rw [hf]
    simp
  · intro f hf
    unfold convert_to_imperial
    rw [hf]
    simp
  · intro f hf
    unfold convert_to_imperial
    cases hmm : mm_fields.contains f <;> simp [hf]
  · exact ⟨by decide, by decide, by decide, by decide, by decide,
      by decide, by decide, by decide, by decide, by decide⟩
  · exact ⟨by decide, by decide, by decide, by decide, by decide⟩

/-- Witness for C2 at `conv_demo_geom`. -/
theorem convert_exactly_mm_fields_witness :
    convert_to_imperial conv_demo_geom .diameter =
      (conv_demo_geom .diameter).map (fun v => round4 (v / 25.4)) ∧
    convert_to_imperial conv_demo_geom .helix_angle =
      conv_demo_geom .helix_angle ∧
    convert_to_imperial conv_demo_geom .corner_radius = none ∧
    convGeom conv_demo_geom .metric .diameter = conv_demo_geom .diameter :=
  ⟨(convert_exactly_mm_fields conv_demo_geom).1 .diameter rfl,
   (convert_exactly_mm_fields conv_demo_geom).2.1 .helix_angle rfl,
   (convert_exactly_mm_fields conv_demo_geom).2.2.1 .corner_radius rfl,
   (convert_exactly_mm_fields conv_demo_geom).2.2.2.2.1 .diameter⟩

/-- C3: when a geometry field is absent after conversion, the
structured export substitutes a default value (0 for `diameter`,
`fluteLength`, `overallLength`; per-type defaults `fluteCount` 2,
`helixAngle` 30, `includedAngle` 90, `pointAngle` 118, `leadAngle` 0),
while the CSV row for the same tool and the same absent fields emits
empty cells. -/
theorem structured_defaults_vs_csv_empty (t : ToolRecord) (u : ExportUnits) :
    (convGeom t.geometry u .diameter = none →
      (generate_fusion_json t u).lookup "diameter" = some (.n 0) ∧
      (csv_row t u)[3]? = some .empty) ∧
    (convGeom t.geometry u .flute_length = none →
      (generate_fusion_json t u).lookup "fluteLength" = some (.n 0) ∧
      (csv_row t u)[4]? = some .empty) ∧
    (convGeom t.geometry u .overall_length = none →
      (generate_fusion_json t u).lookup "overallLength" = some (.n 0) ∧
      (csv_row t u)[5]? = some .empty) ∧
    (t.type = .end_mill → convGeom t.geometry u .flute_count = none →
      (generate_fusion_json t u).lookup "fluteCount" = some (.n 2) ∧
      (csv_row t u)[7]? = some .empty) ∧
    (t.type = .end_mill → convGeom t.geometry u .helix_angle = none →
      (generate_fusion_json t u).lookup "helixAngle" = some (.n 30) ∧
      (csv_row t u)[8]? = some .empty) ∧
    (t.type = .ball_end_mill → convGeom t.geometry u .flute_count = none →
      (generate_fusion_json t u).lookup "fluteCount" = some (.n 2) ∧
      (csv_row t u)[7]? = some .empty) ∧
    (t.type = .chamfer → convGeom t.geometry u .included_angle = none →
      (generate_fusion_json t u).lookup "includedAngle" = some (.n 90) ∧
      (csv_row t u)[7]? = some .empty) ∧
    (t.type = .drill → convGeom t.geometry u .point_angle = none →
      (generate_fusion_json t u).lookup "pointAngle" = some (.n 118) ∧
      (csv_row t u)[7]? = some .empty) ∧
    (t.type = .reamer → convGeom t.geometry u .lead_angle = none →
      (generate_fusion_json t u).lookup "leadAngle" = some (.n 0) ∧
      (csv_row t u)[7]? = some .empty) := by
  rcases t with ⟨n, vend, ty, g⟩
  refine ⟨fun h => ?_, fun h => ?_, fun h => ?_, fun ht h => ?_,
    fun ht h => ?_, fun ht h => ?_, fun ht h => ?_, fun ht h => ?_,
    fun ht h => ?_⟩
  · simp [generate_fusion_json, csv_row, jget, cget, h, List.lookup]
  · simp [generate_fusion_json, csv_row, jget, cget, h, List.lookup]
  · simp [generate_fusion_json, csv_row, jget, cget, h, List.lookup]
  all_goals
    simp only at ht h
  all_goals
    subst ht
  all_goals
    simp [generate_fusion_json, csv_row, jget, cget, h, List.lookup]

/-- Witness for C3 at `drill_demo` under metric units. -/
theorem structured_defaults_vs_csv_empty_witness :
    ((generate_fusion_json drill_demo .metric).lookup "pointAngle" =
        some (.n 118) ∧
      (csv_row drill_demo .metric)[7]? = some .empty) ∧
    ((generate_fusion_json drill_demo .metric).lookup "fluteLength" =
        some (.n 0) ∧
      (csv_row drill_demo .metric)[4]? = some .empty) :=
  ⟨(structured_defaults_vs_csv_empty drill_demo
      .metric).2.2.2.2.2.2.2.1 rfl rfl,
   (structured_defaults_vs_csv_empty drill_demo .metric).2.1 rfl⟩

/-- C7: the export data generator fails with an unsupported-format
error exactly when the requested format is outside the two known values
`fusion_json` and `csv`; for either known format it returns a payload
without failing. -/
theorem export_unsupported_format_iff (t : ToolRecord) (format : String)
    (u : ExportUnits) :
    ((∃ d, generate_export_data t format u = .ok d) ↔
      format = "fusion_json" ∨ format = "csv") ∧
    (format ≠ "fusion_json" → format ≠ "csv" →
      generate_export_data t format u =
        .error ("Unsupported export format: " ++ format)) := by
  by_cases h1 : format = "fusion_json" <;> by_cases h2 : format = "csv" <;>
    simp [generate_export_data, h1, h2]

/-- Witness for C7: the generator rejects the format string `step` and
accepts `csv`. -/
theorem export_unsupported_format_iff_witness :
    generate_export_data drill_demo "step" ExportUnits.metric =
      .error ("Unsupported export format: " ++ "step") ∧
    ((∃ d, generate_export_data drill_demo "csv" ExportUnits.metric = .ok d) ↔
      ("csv" : String) = "fusion_json" ∨ ("csv" : String) = "csv") :=
  ⟨(export_unsupported_format_iff drill_demo "step" .metric).2
      (by decide) (by decide),
   (export_unsupported_format_iff drill_demo "csv" .metric).1⟩

/-! Frame lemmas for the heap model. -/

lemma allocCopy_getElem?_of_lt (s : Store) (r q : Nat)
    (h : q < s.heap.length) : (allocCopy s r).2.heap[q]? = s.heap[q]? := by
  simp [allocCopy, List.getElem?_append, if_pos h]

lemma allocCopy_length (s : Store) (r : Nat) :
    (allocCopy s r).2.heap.length = s.heap.length + 1 := by
  simp [allocCopy]

lemma writeField_getElem?_ne (s : Store) (r : Nat) (f : GeomField) (v : ℚ)
    (q : Nat) (h : q ≠ r) : (writeField s r f v).heap[q]? = s.heap[q]? := by
  unfold writeField
  exact List.getElem?_set_ne (Ne.symm h)

lemma convertStep_getElem?_ne (s : Store) (r : Nat) (f : GeomField)
    (q : Nat) (h : q ≠ r) : (convertStep s r f).heap[q]? = s.heap[q]? := by
  unfold convertStep
  cases readRef s r f with
  | none => rfl
  | some v => exact writeField_getElem?_ne s r f _ q h

lemma foldl_convertStep_getElem?_ne (l : List GeomField) (s : Store)
    (r q : Nat) (h : q ≠ r) :
    (l.foldl (fun acc f => convertStep acc r f) s).heap[q]? = s.heap[q]? := by
  induction l generalizing s with
  | nil => rfl
  | cons a as ih =>
    rw [List.foldl_cons, ih (convertStep s r a), convertStep_getElem?_ne s r a q h]

/-- C10: the export pipeline never mutates the input record's geometry.
In the heap model — where `dict.copy()` allocates and
`converted[field] = ...` writes in place — running the geometry-handling
prefix of either generator (copy, then imperial conversion when
requested) leaves the object behind the input reference untouched:
every geometry field of the input still holds its original value. -/
theorem export_preserves_input_geometry (s : Store) (r : Nat)
    (u : ExportUnits) (h : r < s.heap.length) :
    (export_geometry_ref s r u).2.heap[r]? = s.heap[r]? ∧
    ∀ f, readRef (export_geometry_ref s r u).2 r f = readRef s r f := by
  have key : (export_geometry_ref s r u).2.heap[r]? = s.heap[r]? := by
    cases u with
    | metric => exact allocCopy_getElem?_of_lt s r r h
    | imperial =>
      show (convert_to_imperialRef (allocCopy s r).2 (allocCopy s r).1).2.heap[r]?
          = s.heap[r]?
      unfold convert_to_imperialRef
      rw [foldl_convertStep_getElem?_ne]
      · rw [allocCopy_getElem?_of_lt _ _ r, allocCopy_getElem?_of_lt s r r h]
        rw [allocCopy_length]
        omega
      · have hlen : (allocCopy (allocCopy s r).2 (allocCopy s r).1).1 =
            s.heap.length + 1 := by
          simp [allocCopy]
        rw [hlen]
        omega
  exact ⟨key, fun f => by rw [readRef, key, readRef]⟩

/-- Witness for C10 at `demo_store` under imperial conversion. -/
theorem export_preserves_input_geometry_witness :
    (export_geometry_ref demo_store 0 .imperial).2.heap[0]? =
      demo_store.heap[0]? ∧
    readRef (export_geometry_ref demo_store 0 .imperial).2 0 .diameter =
      readRef demo_store 0 .diameter :=
  ⟨(export_preserves_input_geometry demo_store 0 .imperial
      (by simp [demo_store])).1,
   (export_preserves_input_geometry demo_store 0 .imperial
      (by simp [demo_store])).2 .diameter⟩

/-! ### Monotonicity of the error count (C8) -/

lemma checkFail_mono (g g' : Geometry) (h : ExtendsBad g g') (f : GeomField)
    (bad : ℚ → Bool)
    (hb : ∀ v, violates f v → (decide (v = 0) || bad v) = true) :
    checkFail g f bad = true → checkFail g' f bad = true := by
  intro hf
  cases hgf : g f with
  | none =>
    rcases (h f).2 hgf with h' | ⟨v, hv, hviol⟩
    · simp [checkFail, h']
    · simp only [checkFail, hv]
      exact hb v hviol
  | some v =>
    simp only [checkFail, hgf] at hf
    simp only [checkFail, (h f).1 v hgf]
    exact hf

lemma checkNoneFail_mono (g g' : Geometry) (h : ExtendsBad g g')
    (f : GeomField) (bad : ℚ → Bool)
    (hb : ∀ v, violates f v → bad v = true) :
    checkNoneFail g f bad = true → checkNoneFail g' f bad = true := by
  intro hf
  cases hgf : g f with
  | none =>
    rcases (h f).2 hgf with h' | ⟨v, hv, hviol⟩
    · simp [checkNoneFail, h']
    · simp only [checkNoneFail, hv]
      exact hb v hviol
  | some v =>
    simp only [checkNoneFail, hgf] at hf
    simp only [checkNoneFail, (h f).1 v hgf]
    exact hf

lemma crossFail_mono (g g' : Geometry) (h : ExtendsBad g g')
    (a b : GeomField) (cmp : ℚ → ℚ → Bool) :
    crossFail g a b cmp = true → crossFail g' a b cmp = true := by
  intro hf
  cases ha : g a with
  | none => simp [crossFail, ha] at hf
  | some va =>
    cases hb2 : g b with
    | none => simp [crossFail, ha, hb2] at hf
    | some vb =>
      simp only [crossFail, ha, hb2] at hf
      simp only [crossFail, (h a).1 va ha, (h b).1 vb hb2]
      exact hf

lemma mkErr_length_mono (b b' : Bool) (f m : String)
    (himp : b = true → b' = true) :
    (mkErr b f m).length ≤ (mkErr b' f m).length := by
  cases b with
  | false => cases b' <;> simp [mkErr]
  | true => rw [himp rfl]

lemma basic_errors_length_mono (g g' : Geometry) (h : ExtendsBad g g') :
    (validate_basic_fields g).1.length ≤
      (validate_basic_fields g').1.length := by
  unfold validate_basic_fields
  simp only [List.length_append]
  have m1 := mkErr_length_mono _ _ "diameter" "Diameter must be greater than 0"
    (checkFail_mono g g' h .diameter (fun v => decide (v ≤ 0))
      (by intro v hv; simp [violates] at hv; simp [hv]))
  have m2 := mkErr_length_mono _ _ "flute_length"
    "Flute length must be greater than 0"
    (checkFail_mono g g' h .flute_length (fun v => decide (v ≤ 0))
      (by intro v hv; simp [violates] at hv; simp [hv]))
  have m3 := mkErr_length_mono _ _ "overall_length"
    "Overall length must be greater than 0"
    (checkFail_mono g g' h .overall_length (fun v => decide (v ≤ 0))
      (by intro v hv; simp [violates] at hv; simp [hv]))
  have m4 := mkErr_length_mono _ _ "flute_length"
    "Flute length must be less than overall length"
    (crossFail_mono g g' h .flute_length .overall_length (fun a b => decide (b ≤ a)))
  omega

lemma end_mill_errors_length_mono (g g' : Geometry) (h : ExtendsBad g g') :
    (validate_end_mill g).1.length ≤ (validate_end_mill g').1.length := by
  unfold validate_end_mill
  simp only [List.length_append]
  have m1 := mkErr_length_mono _ _ "flute_count" "Flute count must be at least 1"
    (checkFail_mono g g' h .flute_count (fun v => decide (v < 1))
      (by intro v hv; simp [violates] at hv; simp [hv]))
  have m2 := mkErr_length_mono _ _ "helix_angle" "Helix angle must be non-negative"
    (checkFail_mono g g' h .helix_angle (fun v => decide (v < 0))
      (by intro v hv; simp [violates] at hv
          rcases hv.lt_or_eq with h1 | h1 <;> simp [h1]))
  have m3 := mkErr_length_mono _ _ "length_of_cut"
    "Length of cut must be greater than 0"
    (checkFail_mono g g' h .length_of_cut (fun v => decide (v ≤ 0))
      (by intro v hv; simp [violates] at hv; simp [hv]))
  have m4 := mkErr_length_mono _ _ "length_of_cut"
    "Length of cut cannot exceed flute length"
    (crossFail_mono g g' h .flute_length .length_of_cut (fun a b => decide (a < b)))
  omega

lemma ball_end_mill_errors_length_mono (g g' : Geometry)
    (h : ExtendsBad g g') :
    (validate_ball_end_mill g).1.length ≤
      (validate_ball_end_mill g').1.length := by
  unfold validate_ball_end_mill
  simp only [List.length_append]
  have m1 := mkErr_length_mono _ _ "flute_count" "Flute count must be at least 1"
    (checkFail_mono g g' h .flute_count (fun v => decide (v < 1))
      (by intro v hv; simp [violates] at hv; simp [hv]))
  have m2 := mkErr_length_mono _ _ "tip_radius"
    "Tip radius must be greater than 0"
    (checkFail_mono g g' h .tip_radius (fun v => decide (v ≤ 0))
      (by intro v hv; simp [violates] at hv; simp [hv]))
  have m3 := mkErr_length_mono _ _ "tip_radius"
    "Tip radius must equal half the diameter for ball end mills"
    (crossFail_mono g g' h .diameter .tip_radius (fun d r => decide ((0.01 : ℚ) < |r - d / 2|)))
  omega

lemma chamfer_errors_length_mono (g g' : Geometry) (h : ExtendsBad g g') :
    (validate_chamfer g).1.length ≤ (validate_chamfer g').1.length := by
  unfold validate_chamfer
  simp only [List.length_append]
  have m1 := mkErr_length_mono _ _ "included_angle"
    "Included angle is required and must be greater than 0"
    (checkFail_mono g g' h .included_angle (fun v => decide (v ≤ 0))
      (by intro v hv; simp [violates] at hv; simp [hv]))
  have m2 := mkErr_length_mono _ _ "tip_flat" "Tip flat is required"
    (checkNoneFail_mono g g' h .tip_flat (fun v => decide (v < 0))
      (by intro v hv; simp [violates] at hv; simp [hv]))
  have m3 := mkErr_length_mono _ _ "shank_diameter"
    "Shank diameter must be greater than 0"
    (checkFail_mono g g' h .shank_diameter (fun v => decide (v ≤ 0))
      (by intro v hv; simp [violates] at hv; simp [hv]))
  omega

lemma drill_errors_length_mono (g g' : Geometry) (h : ExtendsBad g g') :
    (validate_drill g).1.length ≤ (validate_drill g').1.length := by
  unfold validate_drill
  exact mkErr_length_mono _ _ "point_angle" "Point angle must be greater than 0"
    (checkFail_mono g g' h .point_angle (fun v => decide (v ≤ 0))
      (by intro v hv; simp [violates] at hv; simp [hv]))

lemma thread_mill_errors_length_mono (g g' : Geometry)
    (h : ExtendsBad g g') :
    (validate_thread_mill g).1.length ≤
      (validate_thread_mill g').1.length := by
  unfold validate_thread_mill
  simp only [List.length_append]
  have m1 := mkErr_length_mono _ _ "pitch" "Pitch must be greater than 0"
    (checkFail_mono g g' h .pitch (fun v => decide (v ≤ 0))
      (by intro v hv; simp [violates] at hv; simp [hv]))
  have m2 := mkErr_length_mono _ _ "max_thread_length"
    "Maximum thread length must be greater than 0"
    (checkFail_mono g g' h .max_thread_length (fun v => decide (v ≤ 0))
      (by intro v hv; simp [violates] at hv; simp [hv]))
  omega

/-- C8: extending a tool's geometry by additional out-of-range fields
never decreases the number of error findings returned by
`validate_tool`. -/
theorem validate_error_count_monotone (n vend : String) (ty : ToolType)
    (g g' : Geometry) (h : ExtendsBad g g') :
    (validate_tool ⟨n, vend, ty, g⟩).errors.length ≤
      (validate_tool ⟨n, vend, ty, g'⟩).errors.length := by
  have hbasic := basic_errors_length_mono g g' h
  have hts : (validate_type_specific ty g).1.length ≤
      (validate_type_specific ty g').1.length := by
    cases ty with
    | end_mill => exact end_mill_errors_length_mono g g' h
    | ball_end_mill => exact ball_end_mill_errors_length_mono g g' h
    | chamfer => exact chamfer_errors_length_mono g g' h
    | drill => exact drill_errors_length_mono g g' h
    | reamer => exact le_refl _
    | thread_mill => exact thread_mill_errors_length_mono g g' h
  have hcompat : (validate_fusion_compatibility ty g).1.length =
      (validate_fusion_compatibility ty g').1.length := rfl
  simp only [validate_tool, List.length_append]
  omega

/-- Witness for C8: extending the empty geometry by `diameter = -1`. -/
theorem validate_error_count_monotone_witness :
    (validate_tool ⟨"t", "v", ToolType.end_mill, ext_base_geom⟩).errors.length ≤
      (validate_tool ⟨"t", "v", ToolType.end_mill, ext_more_geom⟩).errors.length :=
  validate_error_count_monotone "t" "v" .end_mill ext_base_geom ext_more_geom
    (by
      intro f
      constructor
      · intro v hv
        simp [ext_base_geom] at hv
      · intro _
        cases f <;>
          first
            | exact Or.inr ⟨-1, rfl, by norm_num [violates]⟩
            | exact Or.inl rfl)

end CncCalc
